import Mathlib

/-
  Verification development for the fast-flights core module
  (src/fast_flights/core.py): a shallow embedding of the fetch
  orchestrator `get_flights_from_filter` and the extraction engine
  `parse_response`, together with theorems settling the specified
  behavioural properties.

  Modelling conventions:
  * Python exceptions become an explicit `PyError` sum; fallible code
    returns `Except PyError α`.
  * The selectolax document tree is abstracted to exactly the selector
    results that `parse_response` consumes: the list of
    `div[jsname="qJTHM"]` nodes (represented by their `class` attribute
    values), the list of flight-group nodes, and the single
    current-price node.  A node's `.text(...)` result is stored as the
    string the call would return; absent nodes are `none`.
  * Python regular-expression classes `[A-Z0-9]` and `\d` are modelled
    over ASCII, and `str` whitespace handling uses Lean's
    `Char.isWhitespace`, which covers the whitespace characters that
    occur in the provider's markup.
-/

namespace FastFlights

/-- Python-level exception outcomes of the embedded code paths.
`flightParsingError` and `flightDateTooFarError` embed the two custom
exception classes declared at the top of `core.py`, both subclasses of
`RuntimeError`.  The remaining constructors embed builtin Python
exceptions that the embedded code can raise; none of those subclass
`RuntimeError`. -/
inductive PyError where
  | valueError
  | indexError
  | keyError
  | attributeError
  | typeError
  | assertionError
  | flightParsingError (msg : String)
  | flightDateTooFarError (msg : String)
deriving Repr, DecidableEq

/-- The test performed by `except RuntimeError as e:` in
`get_flights_from_filter`: of the modelled exceptions, exactly the two
custom classes are `RuntimeError` subclasses. -/
def PyError.isRuntimeError : PyError → Bool
  | .flightParsingError _ => true
  | .flightDateTooFarError _ => true
  | _ => false

/-! ## Field normalizers -/

/-- Single pass implementing Python `" ".join(s.split())` on a
character list: `started` records whether a word character has been
emitted, `pend` whether whitespace has been seen since the last word
character; each interior whitespace run becomes one space and leading
and trailing whitespace disappears. -/
def collapseWsAux : List Char → Bool → Bool → List Char
  | [], _, _ => []
  | c :: cs, started, pend =>
    if c.isWhitespace then collapseWsAux cs started true
    else if started && pend then ' ' :: c :: collapseWsAux cs true false
    else c :: collapseWsAux cs true false

/-- Python `" ".join(s.split())`: split on whitespace runs (dropping
empty fragments) and rejoin with single spaces. -/
def collapseWs (s : String) : String :=
  ⟨collapseWsAux s.toList false false⟩

/-- Python `s.replace(",", "")`: delete every comma character. -/
def replaceCommas (s : String) : String :=
  ⟨s.data.filter (fun c => c ≠ ',')⟩

/-- Python `s or dflt` for strings: the empty string is falsy. -/
def pyOr (s dflt : String) : String := if s = "" then dflt else s

/-- Python `s or None` for strings: an empty string becomes absence. -/
def pyOrNone (s : String) : Option String := if s = "" then none else some s

/-- Digit-run recogniser used by `int(str)`: digits optionally grouped
by single underscores (an underscore must be both preceded and followed
by a digit).  `prevDigit` records whether the previous character was a
digit.  Returns the accumulated value on acceptance. -/
def pyDigitsAux : List Char → Nat → Bool → Option Nat
  | [], acc, true => some acc
  | [], _, false => none
  | c :: cs, acc, prevDigit =>
    if c.isDigit then pyDigitsAux cs (acc * 10 + (c.toNat - '0'.toNat)) true
    else if c = '_' && prevDigit then pyDigitsAux cs acc false
    else none

/-- The whitespace strip performed by `int(str)` on both ends of its
argument. -/
def stripChars (cs : List Char) : List Char :=
  ((cs.dropWhile Char.isWhitespace).reverse.dropWhile Char.isWhitespace).reverse

/-- Python `int(s)` on a `str` argument: strip surrounding whitespace,
accept an optional sign followed by an underscore-grouped digit run;
`none` models the `ValueError` raised on any other shape. -/
def pythonIntOfString (s : String) : Option Int :=
  match stripChars s.toList with
  | '+' :: rest => (pyDigitsAux rest 0 false).map (fun n => Int.ofNat n)
  | '-' :: rest => (pyDigitsAux rest 0 false).map (fun n => -(Int.ofNat n))
  | cs => (pyDigitsAux cs 0 false).map (fun n => Int.ofNat n)

/-- The `stops` field of a flight: a parsed integer or the sentinel
string `"Unknown"`. -/
inductive StopsVal where
  | num (n : Int)
  | unknown
deriving Repr, DecidableEq

/-- Embedding of the stops-formatting statement of `parse_response`:
`0 if stops == "Nonstop" else int(stops.split(" ", 1)[0])`, with the
surrounding `except ValueError` producing `"Unknown"`.  `split(" ", 1)[0]`
is the prefix of the string before its first space character. -/
def formatStops (stops : String) : StopsVal :=
  if stops = "Nonstop" then .num 0
  else
    match pythonIntOfString ⟨stops.toList.takeWhile (fun c => c != ' ')⟩ with
    | some n => .num n
    | none => .unknown

/-! ## Airline code / flight number decoding

The regular expression in `extract_airline_code_and_flight_number` is
`-([A-Z0-9]{2})-(\d{2,4})-`; `re.findall` scans left to right and, at a
given start position, the quantifier `{2,4}` is greedy with
backtracking.  Only `result[0]` is consumed by the caller, i.e. the
leftmost match. -/

/-- Character class `[A-Z0-9]` (ASCII). -/
def isUpAl (c : Char) : Bool := ('A' ≤ c && c ≤ 'Z') || c.isDigit

/-- Attempt `\d{k}-` at the head of `cs`: exactly `k` digits followed by
a dash.  Returns the digit run. -/
def tryK (k : Nat) (cs : List Char) : Option String :=
  if ((cs.take k).length == k && (cs.take k).all Char.isDigit
      && ((cs.drop k).head? == some '-')) then
    some ⟨cs.take k⟩
  else none

/-- Greedy `\d{2,4}-` at the head of `cs`: four digits first, then
three, then two. -/
def matchDigits (cs : List Char) : Option String :=
  match tryK 4 cs with
  | some s => some s
  | none =>
    match tryK 3 cs with
    | some s => some s
    | none => tryK 2 cs

/-- Attempt the whole pattern `-([A-Z0-9]{2})-(\d{2,4})-` anchored at
the head of `cs`. -/
def matchHere (cs : List Char) : Option (String × String) :=
  match cs with
  | '-' :: c1 :: c2 :: '-' :: rest =>
    if isUpAl c1 && isUpAl c2 then
      match matchDigits rest with
      | some num => some (⟨[c1, c2]⟩, num)
      | none => none
    else none
  | _ => none

/-- Leftmost match of the pattern in `cs` (the `result[0]` of
`re.findall`). -/
def findFirstMatch : List Char → Option (String × String)
  | [] => none
  | c :: cs =>
    match matchHere (c :: cs) with
    | some r => some r
    | none => findFirstMatch cs

/-- Embedding of `extract_airline_code_and_flight_number`: on a match,
return `(result[0][0], result[0][1])`; when `re.findall` returns the
empty list the function prints a diagnostic and then `result[0]` raises
`IndexError`. -/
def extract_airline_code_and_flight_number (s : String) :
    Except PyError (String × String) :=
  match findFirstMatch s.toList with
  | some r => .ok r
  | none => .error .indexError

/-! ## Document model

`parse_response` consumes the parsed document only through the selector
queries listed below; the document model records exactly those query
results. -/

/-- Result of performing the lookup
`node.attributes["data-travelimpactmodelwebsiteurl"]` on a present
`.NZRfve` node: the key can be absent (`KeyError`), present with a
`None` value (selectolax yields `None` for value-less attributes, and
`re.findall` then raises `TypeError`), or present with a string
value. -/
inductive AttrLookup where
  | missingKey
  | noneValue
  | value (s : String)
deriving Repr, DecidableEq

/-- One `ul.Rk10dc li` item node, recorded through the per-field
selector results used by `parse_response`.  A `none` field means the
corresponding `css_first` selector matched nothing; a stored string is
the `.text(...)` result of the matched node.  `dpArTexts` lists the
texts of the `span.mv1WYe div` matches in document order.  `nzrfve` is
`none` when `css_first(".NZRfve")` matches nothing (so `.attributes`
would be taken on `None`). -/
structure Item where
  nameText : Option String
  dpArTexts : List String
  timeAheadText : Option String
  durationText : Option String
  stopsText : Option String
  delayText : Option String
  priceText : Option String
  nzrfve : Option AttrLookup
deriving Repr, DecidableEq

/-- One flight-group node (`div[jsname="IWWDBc"]` or
`div[jsname="YdtKid"]`) with its item nodes in document order. -/
structure Group where
  items : List Item
deriving Repr, DecidableEq

/-- The parsed response document: the `class` attribute value of every
`div[jsname="qJTHM"]` node in document order (`none` when the node has
no `class` attribute), the flight-group nodes, and the
`span.gOatQ` current-price text when that node is present. -/
structure Document where
  qJTHMClasses : List (Option String)
  flightGroups : List Group
  currentPriceNode : Option String
deriving Repr, DecidableEq

/-- The check `parser.css_first('div[jsname="qJTHM"][class="FXkZv fXx9Lc"]')`
finds a node exactly when some `qJTHM` node carries the exact class
attribute value `"FXkZv fXx9Lc"`. -/
def hasDateTooFarMarker (d : Document) : Bool :=
  d.qJTHMClasses.any (fun c => c == some "FXkZv fXx9Lc")

/-- The check `parser.css_first('div[jsname="qJTHM"]')` finds a node exactly when
the list of `qJTHM` nodes is non-empty. -/
def hasResultsContainer (d : Document) : Bool :=
  !d.qJTHMClasses.isEmpty

/-! ## Per-item extraction -/

/-- One extracted offer, mirroring the record assembled at the end of
the item loop in `parse_response` (and the `Flight` container it is
poured into). -/
structure Flight where
  is_best : Bool
  name : String
  departure : String
  arrival : String
  arrival_time_ahead : String
  duration : String
  stops : StopsVal
  delay : Option String
  price : String
  airline_code : String
  flight_number : String
deriving Repr, DecidableEq

/-- The aggregate returned by `parse_response`. -/
structure Result where
  current_price : String
  flights : List Flight
deriving Repr, DecidableEq

/-- The expression
`item.css_first(".NZRfve").attributes["data-travelimpactmodelwebsiteurl"]`:
an absent node raises `AttributeError` (attribute access on `None`), an
absent key raises `KeyError`, and a `None`-valued attribute later makes
`re.findall` raise `TypeError`. -/
def airlineAttr (item : Item) : Except PyError String :=
  match item.nzrfve with
  | none => .error .attributeError
  | some .missingKey => .error .keyError
  | some .noneValue => .error .typeError
  | some (.value s) => .ok s

/-- The `try`/`except ValueError` block around the airline-code
decoding: only a `ValueError` is converted into
`FlightParsingError("Can't parse airline code or flight number")`; every
other exception propagates unchanged. -/
def airlineStep (item : Item) : Except PyError (String × String) :=
  let r : Except PyError (String × String) :=
    match airlineAttr item with
    | .error e => .error e
    | .ok s => extract_airline_code_and_flight_number s
  match r with
  | .error .valueError =>
    .error (.flightParsingError "Can't parse airline code or flight number")
  | other => other

/-- The body of the item loop in `parse_response`: per-field extraction
with blank defaults for absent nodes, normalization, and assembly of
the flight record.  The `IndexError` handler around the
departure/arrival lookup sets both to the empty string whenever fewer
than two `span.mv1WYe div` nodes are present. -/
def parseItem (is_best : Bool) (item : Item) : Except PyError Flight :=
  let name := item.nameText.getD ""
  let dpar : String × String :=
    match item.dpArTexts with
    | t0 :: t1 :: _ => (t0, t1)
    | _ => ("", "")
  let time_ahead := item.timeAheadText.getD ""
  let duration := item.durationText.getD ""
  let stops := item.stopsText.getD ""
  let delay := pyOrNone (item.delayText.getD "")
  let price := pyOr (item.priceText.getD "") "0"
  let stops_fmt := formatStops stops
  match airlineStep item with
  | .error e => .error e
  | .ok (airline_code, flight_number) =>
    .ok {
      is_best := is_best
      name := name
      departure := collapseWs dpar.1
      arrival := collapseWs dpar.2
      arrival_time_ahead := time_ahead
      duration := duration
      stops := stops_fmt
      delay := delay
      price := replaceCommas price
      airline_code := airline_code
      flight_number := flight_number }

/-- Run the item loop over a list of retained items, in order; the
first exception aborts the whole extraction. -/
def parseItems (is_best : Bool) : List Item → Except PyError (List Flight)
  | [] => .ok []
  | it :: its =>
    match parseItem is_best it with
    | .error e => .error e
    | .ok f =>
      match parseItems is_best its with
      | .error e => .error e
      | .ok fs => .ok (f :: fs)

/-- The slice
`fl.css("ul.Rk10dc li")[: (None if dangerously_allow_looping_last_item or i == 0 else -1)]`:
group 0 and the opt-in flag keep every item, any other group drops the
last item (`[:-1]`, which on an empty list is again empty). -/
def retainedItems (dangerously_allow_looping_last_item : Bool) (i : Nat)
    (items : List Item) : List Item :=
  if dangerously_allow_looping_last_item || i == 0 then items
  else items.dropLast

/-- The group loop of `parse_response`: `i` is the running
`enumerate` index, `is_best` holds exactly for group 0, and the
per-group flight lists are concatenated in document order. -/
def parseGroups (dangerously_allow_looping_last_item : Bool) :
    Nat → List Group → Except PyError (List Flight)
  | _, [] => .ok []
  | i, g :: gs =>
    match parseItems (i == 0)
        (retainedItems dangerously_allow_looping_last_item i g.items) with
    | .error e => .error e
    | .ok fs =>
      match parseGroups dangerously_allow_looping_last_item (i + 1) gs with
      | .error e => .error e
      | .ok rest => .ok (fs ++ rest)

/-- Message of the date-too-far failure raised by `parse_response`. -/
def dateTooFarMsg : String := "Requested flight date is too far in the future"

/-- Message of the missing-container failure raised by
`parse_response`. -/
def missingContainerMsg : String := "Required qJTHM element not found in response"

/-- Embedding of `parse_response`: classify the document (date-too-far
marker first, then the required `qJTHM` container), then extract every
flight group and assemble the `Result` with the current-price text
(empty when the `span.gOatQ` node is absent). -/
def parse_response (dangerously_allow_looping_last_item : Bool)
    (d : Document) : Except PyError Result :=
  if hasDateTooFarMarker d then
    .error (.flightDateTooFarError dateTooFarMsg)
  else if !hasResultsContainer d then
    .error (.flightParsingError missingContainerMsg)
  else
    match parseGroups dangerously_allow_looping_last_item 0 d.flightGroups with
    | .error e => .error e
    | .ok flights =>
      .ok { current_price := d.currentPriceNode.getD "", flights := flights }

/-! ## Fetch orchestration -/

/-- The query-parameter dictionary built by `get_flights_from_filter`. -/
structure Params where
  tfs : String
  hl : String
  tfu : String
  curr : String
deriving Repr, DecidableEq

/-- The dictionary `params = {"tfs": data, "hl": "en", "tfu": "EgQIABABIgA", "curr": currency}`. -/
def mkParams (tfs currency : String) : Params :=
  { tfs := tfs, hl := "en", tfu := "EgQIABABIgA", curr := currency }

/-- The `mode` argument of `get_flights_from_filter`. -/
inductive FetchMode where
  | common
  | fallback
  | forceFallback
  | local
deriving Repr, DecidableEq

/-- External fetch collaborators, abstracted as oracles: `fetchResult`
embeds `fetch(params, proxy)` (its `assert res.status_code == 200`
failure is `assertionError`), `fallbackFetch` embeds
`fallback_playwright_fetch`, and `localFetch` embeds
`local_playwright_fetch`.  A returned document stands for the
selectolax parse of the response body. -/
structure World where
  fetchResult : Params → Option String → Except PyError Document
  fallbackFetch : Params → Except PyError Document
  localFetch : Params → Except PyError Document

/-- The mode-dispatch block of `get_flights_from_filter` (lines 52-67):
`common` and `fallback` try the direct fetch, and only `fallback`
recovers from its `AssertionError` by the remote-automation fetch;
`local` and `force-fallback` go straight to their respective
strategies. -/
def fetchDoc (w : World) (params : Params) (mode : FetchMode)
    (proxy : Option String) : Except PyError Document :=
  match mode with
  | .common => w.fetchResult params proxy
  | .fallback =>
    match w.fetchResult params proxy with
    | .error .assertionError => w.fallbackFetch params
    | other => other
  | .local => w.localFetch params
  | .forceFallback => w.fallbackFetch params

/-- Termination measure for the single bounded retry: only `fallback`
mode re-enters `get_flights_from_filter`, and it does so with `local`
mode. -/
def modeFuel : FetchMode → Nat
  | .fallback => 1
  | _ => 0

/-- Embedding of `get_flights_from_filter`: fetch a document according
to `mode`, parse it, and on a `RuntimeError` from parsing retry once in
`local` mode when `mode` is `fallback` — note that the retry passes the
filter and proxy but not the currency, which therefore reverts to its
default `""`.  Any other exception propagates unchanged. -/
def get_flights_from_filter (w : World) (tfs currency : String)
    (mode : FetchMode) (proxy : Option String) : Except PyError Result :=
  match fetchDoc w (mkParams tfs currency) mode proxy with
  | .error e => .error e
  | .ok doc =>
    match parse_response false doc with
    | .ok result => .ok result
    | .error e =>
      if e.isRuntimeError then
        match mode with
        | .fallback => get_flights_from_filter w tfs "" .local proxy
        | _ => .error e
      else .error e
termination_by modeFuel mode
decreasing_by decide

/-! ## Concrete fixtures -/

/-- An item on which every selector misses except the travel-impact
attribute, which decodes to `("UA", "1234")`. -/
def itemGood : Item :=
  { nameText := none
    dpArTexts := []
    timeAheadText := none
    durationText := none
    stopsText := none
    delayText := none
    priceText := none
    nzrfve := some (.value "-UA-1234-") }

/-- Variant of `itemGood` with an absent `.NZRfve` node. -/
def itemNoNode : Item := { itemGood with nzrfve := none }

/-- Variant of `itemGood` with the `.NZRfve` node present but without the
travel-impact attribute. -/
def itemNoAttr : Item := { itemGood with nzrfve := some .missingKey }

/-- Variant of `itemGood` with a travel-impact attribute value in which the
positional pattern finds no match. -/
def itemNoMatch : Item := { itemGood with nzrfve := some (.value "garbage") }

/-- Variant of `itemGood` with a comma-grouped price text. -/
def itemPriced : Item := { itemGood with priceText := some "$1,234" }

/-- The flight extracted from `itemPriced` as a best-group item. -/
def flightPriced : Flight :=
  { is_best := true
    name := ""
    departure := ""
    arrival := ""
    arrival_time_ahead := ""
    duration := ""
    stops := .unknown
    delay := none
    price := "$1234"
    airline_code := "UA"
    flight_number := "1234" }

/-- The flight extracted from `itemGood` as a non-best-group item. -/
def flightGoodOther : Flight :=
  { is_best := false
    name := ""
    departure := ""
    arrival := ""
    arrival_time_ahead := ""
    duration := ""
    stops := .unknown
    delay := none
    price := "0"
    airline_code := "UA"
    flight_number := "1234" }

/-- A document whose only `qJTHM` node is the date-too-far banner; it
also contains a flight group, which must never be reached. -/
def docDTF : Document :=
  { qJTHMClasses := [some "FXkZv fXx9Lc"]
    flightGroups := [{ items := [itemGood] }]
    currentPriceNode := some "low" }

/-- A well-formed results document with no flight groups. -/
def docEmpty : Document :=
  { qJTHMClasses := [none]
    flightGroups := []
    currentPriceNode := none }

/-- A document with no `qJTHM` node at all, although flight groups are
present. -/
def docNoContainer : Document :=
  { qJTHMClasses := []
    flightGroups := [{ items := [itemGood] }]
    currentPriceNode := some "typical" }

/-- A world whose direct and remote fetches both return the
date-too-far page while the local browser obtains a well-formed empty
results page. -/
def worldDTF : World :=
  { fetchResult := fun _ _ => .ok docDTF
    fallbackFetch := fun _ => .ok docDTF
    localFetch := fun _ => .ok docEmpty }

/-- A world whose direct fetch returns a structurally broken page (no
`qJTHM` container) while the local browser obtains a well-formed empty
results page. -/
def worldBrokenPage : World :=
  { fetchResult := fun _ _ => .ok docNoContainer
    fallbackFetch := fun _ => .ok docNoContainer
    localFetch := fun _ => .ok docEmpty }

/-- A two-item group of well-decoding items. -/
def groupTwo : Group := { items := [itemGood, itemPriced] }

/-! ## Claim theorems -/

/-- Claim C5: every fetched document that lacks the required `qJTHM`
results-container node makes `parse_response` fail with the classified
parsing error before any extraction runs — whatever flight groups or
price nodes the document otherwise contains, and for either value of
the include-last-item option — and no `Result` is produced. -/
theorem c5_missing_container (a : Bool) (d : Document)
    (h : hasResultsContainer d = false) :
    parse_response a d = .error (.flightParsingError missingContainerMsg) := by
  have hnil : d.qJTHMClasses = [] := by
    cases hq : d.qJTHMClasses with
    | nil => rfl
    | cons x xs => simp [hasResultsContainer, hq] at h
  simp [parse_response, hasDateTooFarMarker, hasResultsContainer, hnil]

/-- Witness for C5: a concrete document with a flight group present but
no `qJTHM` node is rejected with the missing-container error. -/
theorem c5_missing_container_witness :
    parse_response false docNoContainer
      = .error (.flightParsingError missingContainerMsg) :=
  c5_missing_container false docNoContainer rfl

/-- Claim C6: every fetched document containing the date-too-far marker
node makes `parse_response` fail with `FlightDateTooFarError`,
regardless of any other page content — the marker check precedes both
the missing-container check and all extraction. -/
theorem c6_date_too_far_precedence (a : Bool) (d : Document)
    (h : hasDateTooFarMarker d = true) :
    parse_response a d = .error (.flightDateTooFarError dateTooFarMsg) := by
  simp [parse_response, h]

/-- Witness for C6: a concrete document carrying the date-too-far
banner alongside a flight group and a price node is rejected with the
date-too-far error. -/
theorem c6_date_too_far_precedence_witness :
    parse_response true docDTF = .error (.flightDateTooFarError dateTooFarMsg) :=
  c6_date_too_far_precedence true docDTF rfl

/-- Claim C7: stop-count normalization is a total function (it returns
a `StopsVal` and models no exception): `"Nonstop"` maps to `0`,
otherwise the leading space-delimited token is parsed as a Python
integer (so `"2 stops"` maps to `2`), and when that parse fails (as for
`"mystery"`) the result is the sentinel `"Unknown"`. -/
theorem c7_stops_normalization :
    formatStops "Nonstop" = .num 0
    ∧ formatStops "2 stops" = .num 2
    ∧ formatStops "mystery" = .unknown
    ∧ (∀ s n, s ≠ "Nonstop" →
        pythonIntOfString ⟨s.toList.takeWhile (fun c => c != ' ')⟩ = some n →
        formatStops s = .num n)
    ∧ (∀ s, s ≠ "Nonstop" →
        pythonIntOfString ⟨s.toList.takeWhile (fun c => c != ' ')⟩ = none →
        formatStops s = .unknown) := by
  refine ⟨by decide, by decide, by decide, ?_, ?_⟩
  · intro s n hs hp
    simp only [String.toList] at hp
    simp [formatStops, hs, hp]
  · intro s hs hp
    simp only [String.toList] at hp
    simp [formatStops, hs, hp]

/-- Witness for C7: the general token-parsing clause applied at
`"3 stops"`. -/
theorem c7_stops_normalization_witness : formatStops "3 stops" = .num 3 :=
  c7_stops_normalization.2.2.2.1 "3 stops" 3 (by decide) (by decide)

/-- Counterexample for C1: the fetched document parses to
`FlightDateTooFarError`, yet in `"fallback"` mode
`get_flights_from_filter` does not surface that error — it catches it
(the error is a `RuntimeError`) and escalates to the local-browser
strategy, here returning that strategy's successful `Result` instead. -/
theorem c1_counterexample :
    parse_response false docDTF
      = .error (.flightDateTooFarError dateTooFarMsg)
    ∧ get_flights_from_filter worldDTF "t" "" .fallback none
        = .ok { current_price := "", flights := [] } := by
  have hd : parse_response false docDTF
      = .error (.flightDateTooFarError dateTooFarMsg) := rfl
  have he : parse_response false docEmpty
      = .ok { current_price := "", flights := [] } := rfl
  refine ⟨hd, ?_⟩
  simp [get_flights_from_filter, worldDTF, fetchDoc, hd, he,
    PyError.isRuntimeError]

/-- Claim C1 (amended): when parsing the fetched document fails with
`FlightDateTooFarError`, `get_flights_from_filter` surfaces it
immediately in every mode except `"fallback"`; in `"fallback"` mode the
error is caught like any `RuntimeError` and triggers one escalation to
the local-browser strategy, whose outcome is returned instead. -/
theorem c1_amended_date_too_far_handling (w : World) (tfs currency : String)
    (mode : FetchMode) (proxy : Option String) (doc : Document) (msg : String)
    (hf : fetchDoc w (mkParams tfs currency) mode proxy = .ok doc)
    (hp : parse_response false doc = .error (.flightDateTooFarError msg)) :
    (mode ≠ .fallback →
      get_flights_from_filter w tfs currency mode proxy
        = .error (.flightDateTooFarError msg))
    ∧ (mode = .fallback →
      get_flights_from_filter w tfs currency mode proxy
        = get_flights_from_filter w tfs "" .local proxy) := by
  constructor
  · intro hm
    unfold get_flights_from_filter
    simp only [hf, hp, PyError.isRuntimeError, if_true]
  · intro hm
    subst hm
    conv_lhs => unfold get_flights_from_filter
    simp only [hf, hp, PyError.isRuntimeError, if_true]

/-- Witness for the amended C1: in `"common"` mode a date-too-far page
is surfaced unchanged. -/
theorem c1_amended_witness :
    get_flights_from_filter worldDTF "t" "" .common none
      = .error (.flightDateTooFarError dateTooFarMsg) :=
  (c1_amended_date_too_far_handling worldDTF "t" "" .common none docDTF
      dateTooFarMsg rfl rfl).1 (by decide)

/-- Claim C2 exhibits a code bug: when the `.NZRfve` node is absent,
when its travel-impact attribute key is absent, or when the attribute
value contains no substring matching `-<CODE>-<NUMBER>-`, extraction
aborts with `AttributeError`, `KeyError` or `IndexError` respectively —
never with the classified `FlightParsingError`, because the
`except ValueError` guard around the decoder can never fire (the
decoder raises `IndexError`, not `ValueError`, on a failed match).
None of the actually-raised exceptions is even a `RuntimeError`, so the
classified-error contract of the claim is violated on all three
inputs. -/
theorem c2_airline_failure_exception_types :
    parseItem true itemNoNode = .error .attributeError
    ∧ parseItem true itemNoAttr = .error .keyError
    ∧ parseItem true itemNoMatch = .error .indexError
    ∧ parseItem true itemNoNode
        ≠ .error (.flightParsingError "Can't parse airline code or flight number")
    ∧ parseItem true itemNoAttr
        ≠ .error (.flightParsingError "Can't parse airline code or flight number")
    ∧ parseItem true itemNoMatch
        ≠ .error (.flightParsingError "Can't parse airline code or flight number")
    ∧ PyError.attributeError.isRuntimeError = false
    ∧ PyError.keyError.isRuntimeError = false
    ∧ PyError.indexError.isRuntimeError = false := by
  have h1 : parseItem true itemNoNode = .error .attributeError := rfl
  have h2 : parseItem true itemNoAttr = .error .keyError := rfl
  have h3 : parseItem true itemNoMatch = .error .indexError := rfl
  refine ⟨h1, h2, h3, ?_, ?_, ?_, rfl, rfl, rfl⟩
  · rw [h1]; simp
  · rw [h2]; simp
  · rw [h3]; simp

/-- Counterexample for C3: the regular expression demands an airline
code of exactly two characters, so the attribute value `"-UAX-1234-"`
with a three-character code does not decode — `re.findall` finds no
match and the decoder fails (with `IndexError`) instead of producing
`("UAX", "1234")`. -/
theorem c3_counterexample :
    extract_airline_code_and_flight_number "-UAX-1234-" = .error .indexError
    ∧ extract_airline_code_and_flight_number "-UAX-1234-" ≠ .ok ("UAX", "1234") := by
  have h : extract_airline_code_and_flight_number "-UAX-1234-"
      = .error .indexError := rfl
  exact ⟨h, by rw [h]; simp⟩

/-- Specification of `tryK`: a successful digit-run match has exactly `k` characters,
all digits. -/
theorem tryK_spec (k : Nat) (cs : List Char) (num : String)
    (h : tryK k cs = some num) :
    num.data.length = k ∧ num.data.all Char.isDigit = true := by
  unfold tryK at h
  split at h
  case isTrue hcond =>
    cases h
    simp only [Bool.and_eq_true, beq_iff_eq] at hcond
    exact ⟨hcond.1.1, hcond.1.2⟩
  case isFalse => cases h

/-- Specification of `matchDigits`: a successful match has two to four characters, all
digits. -/
theorem matchDigits_spec (cs : List Char) (num : String)
    (h : matchDigits cs = some num) :
    (2 ≤ num.data.length ∧ num.data.length ≤ 4)
      ∧ num.data.all Char.isDigit = true := by
  unfold matchDigits at h
  cases h4 : tryK 4 cs with
  | some s =>
    rw [h4] at h
    cases h
    have := tryK_spec 4 cs _ h4
    exact ⟨⟨by omega, by omega⟩, this.2⟩
  | none =>
    rw [h4] at h
    cases h3 : tryK 3 cs with
    | some s =>
      rw [h3] at h
      cases h
      have := tryK_spec 3 cs _ h3
      exact ⟨⟨by omega, by omega⟩, this.2⟩
    | none =>
      rw [h3] at h
      have := tryK_spec 2 cs _ h
      exact ⟨⟨by omega, by omega⟩, this.2⟩

/-- Specification of `matchHere`: a successful anchored match yields a two-character
code over `[A-Z0-9]` and a two-to-four digit number. -/
theorem matchHere_spec (cs : List Char) (code num : String)
    (h : matchHere cs = some (code, num)) :
    (code.data.length = 2 ∧ code.data.all isUpAl = true)
      ∧ (2 ≤ num.data.length ∧ num.data.length ≤ 4)
      ∧ num.data.all Char.isDigit = true := by
  unfold matchHere at h
  split at h
  case h_1 c1 c2 rest =>
    split at h
    case isTrue hup =>
      cases hd : matchDigits rest with
      | some s =>
        rw [hd] at h
        simp only [Option.some.injEq, Prod.mk.injEq] at h
        obtain ⟨hc, hn⟩ := h
        subst hc; subst hn
        simp only [Bool.and_eq_true] at hup
        refine ⟨⟨rfl, ?_⟩, matchDigits_spec rest _ hd⟩
        simp [hup.1, hup.2]
      | none => rw [hd] at h; cases h
    case isFalse => cases h
  case h_2 => cases h

/-- Specification of `findFirstMatch`: any match found while scanning satisfies the
anchored-match specification. -/
theorem findFirstMatch_spec (cs : List Char) (code num : String)
    (h : findFirstMatch cs = some (code, num)) :
    (code.data.length = 2 ∧ code.data.all isUpAl = true)
      ∧ (2 ≤ num.data.length ∧ num.data.length ≤ 4)
      ∧ num.data.all Char.isDigit = true := by
  induction cs with
  | nil => cases h
  | cons c cs ih =>
    unfold findFirstMatch at h
    cases hm : matchHere (c :: cs) with
    | some r =>
      rw [hm] at h
      cases h
      exact matchHere_spec _ _ _ hm
    | none =>
      rw [hm] at h
      exact ih h

/-- Claim C3 (amended): the decoder uses the fixed positional pattern
`-<CODE>-<NUMBER>-` with an airline code of exactly two alphanumeric
characters (not two to three) and a flight number of two to four
digits; a value containing `"-UA-1234-"` yields `("UA", "1234")`, and
every successful decode has this shape. -/
theorem c3_amended_airline_decoder :
    extract_airline_code_and_flight_number "-UA-1234-" = .ok ("UA", "1234")
    ∧ (∀ s code num,
        extract_airline_code_and_flight_number s = .ok (code, num) →
        (code.data.length = 2 ∧ code.data.all isUpAl = true)
          ∧ (2 ≤ num.data.length ∧ num.data.length ≤ 4)
          ∧ num.data.all Char.isDigit = true) := by
  refine ⟨rfl, ?_⟩
  intro s code num h
  unfold extract_airline_code_and_flight_number at h
  cases hf : findFirstMatch s.toList with
  | some r =>
    rw [hf] at h
    cases h
    exact findFirstMatch_spec _ _ _ hf
  | none => rw [hf] at h; cases h

/-- Witness for the amended C3: the general clause applied to a
concrete successful decode. -/
theorem c3_amended_witness :
    ("Z9".data.length = 2 ∧ "Z9".data.all isUpAl = true)
      ∧ (2 ≤ "99".data.length ∧ "99".data.length ≤ 4)
      ∧ "99".data.all Char.isDigit = true :=
  c3_amended_airline_decoder.2 "x-Z9-99-y" "Z9" "99" rfl

/-- Specification of `parseItems`: a successful run yields one flight per retained
item. -/
theorem parseItems_length (b : Bool) (its : List Item) (fs : List Flight)
    (h : parseItems b its = .ok fs) : fs.length = its.length := by
  induction its generalizing fs with
  | nil => cases h; rfl
  | cons it its ih =>
    unfold parseItems at h
    cases hp : parseItem b it with
    | error e => rw [hp] at h; cases h
    | ok f =>
      rw [hp] at h
      cases hr : parseItems b its with
      | error e => rw [hr] at h; cases h
      | ok fs2 =>
        rw [hr] at h
        cases h
        simp [ih fs2 hr]

/-- Claim C4: when the items retained from group `i` all extract
successfully, that group contributes all of its `N` items for the first
group (`i = 0`) or when the include-last-item option is set, and
exactly `N - 1` flights otherwise (the last item is excluded). -/
theorem c4_group_item_counts (allowLast : Bool) (i : Nat) (g : Group)
    (fs : List Flight)
    (h : parseItems (i == 0) (retainedItems allowLast i g.items) = .ok fs) :
    fs.length = if allowLast || i == 0 then g.items.length
                else g.items.length - 1 := by
  have hl := parseItems_length _ _ _ h
  unfold retainedItems at hl
  split at hl
  case isTrue hc => rw [if_pos hc]; exact hl
  case isFalse hc =>
    rw [if_neg hc]
    exact hl.trans (List.length_dropLast _)

/-- Witness for C4: a later group of two well-formed items contributes
exactly one flight. -/
theorem c4_group_item_counts_witness :
    [flightGoodOther].length
      = if false || 1 == 0 then groupTwo.items.length
        else groupTwo.items.length - 1 :=
  c4_group_item_counts false 1 groupTwo [flightGoodOther] rfl

/-- The function `replaceCommas` leaves no comma in its output. -/
theorem replaceCommas_no_comma (s : String) :
    ∀ c ∈ (replaceCommas s).data, c ≠ ',' := by
  intro c hc
  unfold replaceCommas at hc
  simp only [List.mem_filter, decide_eq_true_eq] at hc
  exact hc.2

/-- The price field assembled by the item loop is always the raw price
text (defaulted to `"0"`) with commas removed. -/
theorem parseItem_price (b : Bool) (item : Item) (f : Flight)
    (h : parseItem b item = .ok f) :
    f.price = replaceCommas (pyOr (item.priceText.getD "") "0") := by
  cases ha : airlineStep item with
  | error e =>
    simp only [parseItem, ha] at h
    cases h
  | ok p =>
    cases p with
    | mk a n =>
      simp only [parseItem, ha, Except.ok.injEq] at h
      subst h
      rfl

/-- No flight produced by the item loop over a list of items carries a
comma in its price. -/
theorem parseItems_price (b : Bool) (its : List Item) (fs : List Flight)
    (h : parseItems b its = .ok fs) :
    ∀ f ∈ fs, ∀ c ∈ f.price.data, c ≠ ',' := by
  induction its generalizing fs with
  | nil => cases h; intro f hf; cases hf
  | cons it its ih =>
    unfold parseItems at h
    cases hp : parseItem b it with
    | error e => rw [hp] at h; cases h
    | ok f0 =>
      rw [hp] at h
      cases hr : parseItems b its with
      | error e => rw [hr] at h; cases h
      | ok fs0 =>
        rw [hr] at h
        cases h
        intro f hf
        rcases List.mem_cons.mp hf with rfl | hf2
        · rw [parseItem_price b it f hp]
          exact replaceCommas_no_comma _
        · exact ih fs0 hr f hf2

/-- No flight produced by the group loop carries a comma in its
price. -/
theorem parseGroups_price (a : Bool) (i : Nat) (gs : List Group)
    (fs : List Flight) (h : parseGroups a i gs = .ok fs) :
    ∀ f ∈ fs, ∀ c ∈ f.price.data, c ≠ ',' := by
  induction gs generalizing i fs with
  | nil => cases h; intro f hf; cases hf
  | cons g gs ih =>
    unfold parseGroups at h
    cases h1 : parseItems (i == 0) (retainedItems a i g.items) with
    | error e => rw [h1] at h; cases h
    | ok fs1 =>
      rw [h1] at h
      cases h2 : parseGroups a (i + 1) gs with
      | error e => rw [h2] at h; cases h
      | ok fs2 =>
        rw [h2] at h
        cases h
        intro f hf
        rcases List.mem_append.mp hf with hf1 | hf2
        · exact parseItems_price _ _ _ h1 f hf1
        · exact ih (i + 1) fs2 h2 f hf2

/-- No flight in a successful `parse_response` carries a comma in its
price. -/
theorem parse_response_price (a : Bool) (d : Document) (res : Result)
    (h : parse_response a d = .ok res) :
    ∀ f ∈ res.flights, ∀ c ∈ f.price.data, c ≠ ',' := by
  unfold parse_response at h
  split at h
  · cases h
  · split at h
    · cases h
    · cases hg : parseGroups a 0 d.flightGroups with
      | error e => rw [hg] at h; cases h
      | ok fls =>
        rw [hg] at h
        cases h
        intro f hf
        exact parseGroups_price a 0 _ _ hg f hf

/-- Claim C8: the price of a produced flight is the raw price text with
every comma removed, it is the literal `"0"` when the price node is
absent or its text empty, and consequently no flight of any produced
`Result` ever carries a comma in its price. -/
theorem c8_price_normalization :
    (∀ b item f, parseItem b item = .ok f →
      (∀ s, item.priceText = some s → s ≠ "" → f.price = replaceCommas s)
      ∧ ((item.priceText = none ∨ item.priceText = some "") → f.price = "0"))
    ∧ (∀ a d res, parse_response a d = .ok res →
        ∀ f ∈ res.flights, ∀ c ∈ f.price.data, c ≠ ',') := by
  constructor
  · intro b item f h
    have hp := parseItem_price b item f h
    constructor
    · intro s hs hne
      rw [hp, hs]
      simp [pyOr, hne]
    · intro hcase
      rcases hcase with hnone | hempty
      · rw [hp, hnone]; rfl
      · rw [hp, hempty]; rfl
  · intro a d res h
    exact parse_response_price a d res h

/-- Witness for C8: the comma-grouped price text `"$1,234"` of a
concrete item becomes `"$1234"` in the produced flight. -/
theorem c8_price_normalization_witness :
    flightPriced.price = replaceCommas "$1,234"
    ∧ replaceCommas "$1,234" = "$1234" :=
  ⟨(c8_price_normalization.1 true itemPriced flightPriced rfl).1 "$1,234" rfl
      (by decide),
    rfl⟩

/-- Claim C9: extraction is deterministic and idempotent.  The
embedding of `parse_response` is a pure function of the document (the
Python code reads no state outside its arguments and mutates none that
survives the call), so two runs on the same parsed document are the
same value. -/
theorem c9_extraction_deterministic (a : Bool) (d : Document) :
    parse_response a d = parse_response a d := rfl

/-- Witness for C9: two runs on a concrete document coincide. -/
theorem c9_extraction_deterministic_witness :
    parse_response false docEmpty = parse_response false docEmpty :=
  c9_extraction_deterministic false docEmpty

/-- Claim C10: in `"fallback"` mode with a non-empty currency, when a
parsing failure (any `RuntimeError`) triggers the escalated
local-browser retry, the retry is the `"local"`-mode call with the
default empty currency; the local strategy fetches with
`mkParams tfs ""`, whose currency field differs from the original
call's. -/
theorem c10_fallback_retry_currency (w : World) (tfs currency : String)
    (proxy : Option String) (doc : Document) (e : PyError)
    (hcur : currency ≠ "")
    (hf : fetchDoc w (mkParams tfs currency) .fallback proxy = .ok doc)
    (hp : parse_response false doc = .error e)
    (hrt : e.isRuntimeError = true) :
    get_flights_from_filter w tfs currency .fallback proxy
      = get_flights_from_filter w tfs "" .local proxy
    ∧ fetchDoc w (mkParams tfs "") .local proxy
        = w.localFetch (mkParams tfs "")
    ∧ (mkParams tfs "").curr ≠ (mkParams tfs currency).curr := by
  refine ⟨?_, rfl, ?_⟩
  · conv_lhs => unfold get_flights_from_filter
    simp only [hf, hp, hrt, if_true]
  · simpa [mkParams] using Ne.symm hcur

/-- Witness for C10: a world whose direct fetch yields a structurally
broken page; the fallback-mode call with currency `"USD"` becomes the
local-mode call with currency `""`. -/
theorem c10_fallback_retry_currency_witness :
    get_flights_from_filter worldBrokenPage "t" "USD" .fallback none
      = get_flights_from_filter worldBrokenPage "t" "" .local none
    ∧ fetchDoc worldBrokenPage (mkParams "t" "") .local none
        = worldBrokenPage.localFetch (mkParams "t" "")
    ∧ (mkParams "t" "").curr ≠ (mkParams "t" "USD").curr :=
  c10_fallback_retry_currency worldBrokenPage "t" "USD" none docNoContainer
    (.flightParsingError missingContainerMsg) (by decide) rfl rfl rfl

end FastFlights
